import Mathlib

/-!
Verification of the notification subsystem: the ban-status-change notifier
(`src/API/run_mcdc_demo.py`, function `notify_user_ban_status_change`) and the
unread-message notifier (`src/API/chat/tasks.py`, function
`send_new_message_notifications`), against the natural-language specification.
-/

/-- Embedding of the `MockUser` class of `src/API/run_mcdc_demo.py`: identity with
an email address and display name, plus a username and a fixed primary key. -/
structure MockUser where
  username : String
  email : String
  first_name : String
  last_name : String
  pk : Int
deriving DecidableEq

/-- Embedding of the `MockUserProfile` class of `src/API/run_mcdc_demo.py`: the
profile record carries a user reference, a boolean banned flag and a nullable
primary key (absent until first persisted). -/
structure MockUserProfile where
  user : MockUser
  is_banned : Bool
  pk : Option Int
deriving DecidableEq

/-- Python truthiness of the nullable integer field `pk`: both `None` and `0`
are falsy, every other integer is truthy. The check `if not instance.pk` in the
source is the negation of this. -/
def pyTruthy : Option Int → Bool
  | none => false
  | some n => n != 0

/-- Embedding of `notify_user_ban_status_change` from `src/API/run_mcdc_demo.py`
(lines 38 to 66). The external lookup `sender.objects.get` together with its
`DoesNotExist` handler is passed in as `lookup`, returning `none` exactly when
the original raises `DoesNotExist` (the `try`/`except` assigns `previous = None`
in that case). The result pairs the return value of the Python function
(`None`, `"ban_sent"`, `"unban_sent"`, or `"no_action"`) with the list of
messages printed, which is the mock dispatch side effect of the demo. -/
def notify_user_ban_status_change (lookup : Option Int → Option MockUserProfile)
    (inst : MockUserProfile) : Option String × List String :=
  if !pyTruthy inst.pk then
    (none, [])
  else
    let previous := lookup inst.pk
    let user := inst.user
    match previous with
    | some prev =>
      if prev.is_banned != inst.is_banned then
        if inst.is_banned then
          (some "ban_sent", ["MOCK: Enviando email de ban para " ++ user.email])
        else
          (some "unban_sent", ["MOCK: Enviando email de unban para " ++ user.email])
      else
        (some "no_action", [])
    | none => (some "no_action", [])

/-- The decision result of the ban-status notifier, as named by the
specification: `NoAction`, `BanNotification(user)` or `UnbanNotification(user)`. -/
inductive Outcome where
  | NoAction : Outcome
  | BanNotification : MockUser → Outcome
  | UnbanNotification : MockUser → Outcome
deriving DecidableEq

/-- The demo function encodes its outcome as a return value: `"ban_sent"` is a
ban notification for the instance user, `"unban_sent"` an unban notification,
and both `None` (early exit) and `"no_action"` (the other terminal branches,
where no dispatch happens) are the no-action outcome. -/
def outcomeOf (user : MockUser) : Option String → Outcome
  | some s =>
    if s = "ban_sent" then Outcome.BanNotification user
    else if s = "unban_sent" then Outcome.UnbanNotification user
    else Outcome.NoAction
  | none => Outcome.NoAction

/-- A call to the asynchronous dispatch collaborator, carrying an email address,
a first name and a last name. The first constructor is the ban email queue, the
second the unban email queue. -/
inductive DispatchCall where
  | enqueueBanEmail : String → String → String → DispatchCall
  | enqueueUnbanEmail : String → String → String → DispatchCall
deriving DecidableEq

/-- Modelled from the spec: the production signal handler
`notify_user_ban_status_change` lives in `users/signals.py`, which is not under
`src/` (only its MC/DC test file and the demo replica are). Following section
4.2 of the spec: D1, pk absent gives NoAction; D2, lookup not found gives
NoAction; D3, equal flags gives NoAction; D4, differing flags give
BanNotification or UnbanNotification of the instance user according to the
instance banned flag; and each outcome other than NoAction triggers exactly one
dispatch call carrying the user email, first name and last name. -/
def on_change (previousLookup : Int → Option MockUserProfile)
    (inst : MockUserProfile) : Outcome × List DispatchCall :=
  match inst.pk with
  | none => (Outcome.NoAction, [])
  | some k =>
    match previousLookup k with
    | none => (Outcome.NoAction, [])
    | some previous =>
      if previous.is_banned != inst.is_banned then
        if inst.is_banned then
          (Outcome.BanNotification inst.user,
            [DispatchCall.enqueueBanEmail inst.user.email inst.user.first_name
              inst.user.last_name])
        else
          (Outcome.UnbanNotification inst.user,
            [DispatchCall.enqueueUnbanEmail inst.user.email inst.user.first_name
              inst.user.last_name])
      else (Outcome.NoAction, [])

/-- The default user built by the demo script: the `MockUser` constructor
defaults of `src/API/run_mcdc_demo.py`. -/
def demoUser : MockUser :=
  { username := "testuser", email := "test@example.com", first_name := "Test",
    last_name := "User", pk := 1 }

/-- A profile that was never persisted: `pk = None` (test case CT1). -/
def profileNoPk : MockUserProfile :=
  { user := demoUser, is_banned := false, pk := none }

/-- A profile whose primary key is set to the falsy integer `0`. -/
def profileZeroPk : MockUserProfile :=
  { user := demoUser, is_banned := false, pk := some 0 }

/-- A persisted banned profile with `pk = 1`. -/
def profileBanned : MockUserProfile :=
  { user := demoUser, is_banned := true, pk := some 1 }

/-- A persisted unbanned profile with `pk = 1`. -/
def profileUnbanned : MockUserProfile :=
  { user := demoUser, is_banned := false, pk := some 1 }

/-- A lookup that signals not-found for every key (the `DoesNotExist` path). -/
def lookupNotFound : Option Int → Option MockUserProfile := fun _ => none

/-- A lookup that finds the unbanned profile for every key. -/
def lookupUnbanned : Option Int → Option MockUserProfile := fun _ => some profileUnbanned

/-- A lookup that finds the banned profile for every key. -/
def lookupBanned : Option Int → Option MockUserProfile := fun _ => some profileBanned

/-- A user row as seen by `src/API/chat/tasks.py`: a primary key and an email
address. -/
structure ChatUser where
  pk : Nat
  email : String
deriving DecidableEq

/-- A `ChatRoom` row (`chat/models.py` collaborator): a conversation between
two participants. -/
structure ChatRoom where
  pk : Nat
  participant_1 : ChatUser
  participant_2 : ChatUser
deriving DecidableEq

/-- A `Message` row: belongs to one room, has a sender and content. -/
structure Message where
  pk : Nat
  room : ChatRoom
  sender : ChatUser
  content : String
deriving DecidableEq

/-- The database state the task queries: the `User`, `ChatRoom` and `Message`
tables. -/
structure ChatDB where
  users : List ChatUser
  chatrooms : List ChatRoom
  messages : List Message
deriving DecidableEq

/-- The per-user count computed by the room loop of
`send_new_message_notifications` (`src/API/chat/tasks.py`, lines 14 to 28):
the rooms where the user is participant 1 and the rooms where the user is
participant 2 are combined and deduplicated (the `list(set(... + ...))` step;
the order a Python set yields is immaterial because the loop only sums), and
for each room the messages of that room sent by the other participant are
counted and accumulated. -/
def new_messages_count (db : ChatDB) (user : ChatUser) : Nat :=
  let chatrooms_as_p1 := db.chatrooms.filter (fun c => c.participant_1 == user)
  let chatrooms_as_p2 := db.chatrooms.filter (fun c => c.participant_2 == user)
  let all_chatrooms := (chatrooms_as_p1 ++ chatrooms_as_p2).dedup
  all_chatrooms.foldl (fun acc chatroom =>
    let other_participant : Option ChatUser :=
      if chatroom.participant_1 == user then some chatroom.participant_2
      else if chatroom.participant_2 == user then some chatroom.participant_1
      else none
    match other_participant with
    | some other =>
      acc + (db.messages.filter (fun m =>
        m.room == chatroom && m.sender == other)).length
    | none => acc) 0

/-- An outbound email as handed to the `send_mail` delivery collaborator:
subject, message body, sender address and recipient list. -/
structure SentMail where
  subject : String
  message : String
  from_email : String
  recipient_list : List String
deriving DecidableEq

/-- One iteration of the user loop of `send_new_message_notifications`
(`src/API/chat/tasks.py`, lines 13 to 38): if the computed count is positive,
the mail is built and handed to the delivery collaborator; a raised delivery
error (`Except.error e`) is caught and turns into the printed error line, a
success appends the mail to the outbox. The accumulator pairs outbox and
printed error log. -/
def notifyStep (send_mail : SentMail → Except String Unit)
    (DEFAULT_FROM_EMAIL : String) (db : ChatDB)
    (acc : List SentMail × List String) (user : ChatUser) :
    List SentMail × List String :=
  if new_messages_count db user > 0 then
    let subject := "Você tem novas mensagens (" ++
      toString (new_messages_count db user) ++ ")"
    let message := "Você tem " ++ toString (new_messages_count db user) ++
      " novas mensagens não lidas. Acesse o AcheiUnB para visualizá-las."
    let from_email := DEFAULT_FROM_EMAIL
    let recipient_list := [user.email]
    match send_mail ⟨subject, message, from_email, recipient_list⟩ with
    | Except.ok _ => (acc.1 ++ [⟨subject, message, from_email, recipient_list⟩], acc.2)
    | Except.error e =>
      (acc.1, acc.2 ++ ["Erro ao enviar e-mail para " ++ user.email ++ ": " ++ e])
  else acc

/-- Embedding of `send_new_message_notifications` from `src/API/chat/tasks.py`:
iterate over all users, run `notifyStep` for each, return the outbox of
successfully sent mails together with the printed error log. -/
def send_new_message_notifications (send_mail : SentMail → Except String Unit)
    (DEFAULT_FROM_EMAIL : String) (db : ChatDB) : List SentMail × List String :=
  db.users.foldl (notifyStep send_mail DEFAULT_FROM_EMAIL db) ([], [])

/-- The notification mail built for a user by `notifyStep`: both subject and
body embed the count. -/
def mailFor (DEFAULT_FROM_EMAIL : String) (db : ChatDB) (user : ChatUser) : SentMail :=
  { subject := "Você tem novas mensagens (" ++
      toString (new_messages_count db user) ++ ")",
    message := "Você tem " ++ toString (new_messages_count db user) ++
      " novas mensagens não lidas. Acesse o AcheiUnB para visualizá-las.",
    from_email := DEFAULT_FROM_EMAIL,
    recipient_list := [user.email] }

/-- The outbox produced by a run over a given user list: one mail per user with
a positive count whose delivery succeeded. -/
def outboxFor (send_mail : SentMail → Except String Unit) (fe : String)
    (db : ChatDB) : List ChatUser → List SentMail
  | [] => []
  | u :: us =>
    (if new_messages_count db u > 0 then
      match send_mail (mailFor fe db u) with
      | Except.ok _ => [mailFor fe db u]
      | Except.error _ => []
    else []) ++ outboxFor send_mail fe db us

/-- The error log produced by a run over a given user list: one line per user
with a positive count whose delivery raised. -/
def logFor (send_mail : SentMail → Except String Unit) (fe : String)
    (db : ChatDB) : List ChatUser → List String
  | [] => []
  | u :: us =>
    (if new_messages_count db u > 0 then
      match send_mail (mailFor fe db u) with
      | Except.ok _ => []
      | Except.error e => ["Erro ao enviar e-mail para " ++ u.email ++ ": " ++ e]
    else []) ++ logFor send_mail fe db us

/-- The other participant of a conversation from the point of view of user `u`,
as the spec words it (with distinct participants this is the participant that
is not `u`). -/
def specOther (u : ChatUser) (c : ChatRoom) : ChatUser :=
  if c.participant_1 = u then c.participant_2 else c.participant_1

/-- Written from the spec words, sections 3 and 4.1, for comparison with the
code: the unread count of user `u` is the sum, over all conversations in which
`u` participates, of the number of messages in that conversation authored by
the other participant. -/
def spec_unread_count (db : ChatDB) (u : ChatUser) : Nat :=
  ((db.chatrooms.filter (fun c =>
      c.participant_1 == u || c.participant_2 == u)).map
    (fun c => (db.messages.filter (fun m =>
      m.room == c && m.sender == specOther u c)).length)).sum

/-- First sample user of the notification test scenario. -/
def alice : ChatUser := { pk := 1, email := "test1@example.com" }

/-- Second sample user of the notification test scenario. -/
def bob : ChatUser := { pk := 2, email := "test2@example.com" }

/-- The conversation between the two sample users. -/
def room12 : ChatRoom := { pk := 1, participant_1 := alice, participant_2 := bob }

/-- The database of the notification test scenario: two users, one room, two
messages sent by the second user. -/
def sampleDB : ChatDB :=
  { users := [alice, bob],
    chatrooms := [room12],
    messages :=
      [ { pk := 1, room := room12, sender := bob, content := "Hello user1!" },
        { pk := 2, room := room12, sender := bob, content := "How are you?" } ] }

/-- A delivery collaborator that always succeeds. -/
def sendOk : SentMail → Except String Unit := fun _ => Except.ok ()

/-- A delivery collaborator that raises exactly for mail addressed to the first
sample user. -/
def sendFailAlice : SentMail → Except String Unit := fun m =>
  if m.recipient_list == ["test1@example.com"] then Except.error "boom"
  else Except.ok ()

/-- Claim C1: whenever the primary key of the instance is absent, the outcome of
the ban-status notifier is NoAction, no dispatch message is produced, and the
result does not depend on the lookup collaborator at all (the lookup is never
consulted), whatever the banned flags are. -/
theorem ban_pk_absent_no_action (lookup lookup2 : Option Int → Option MockUserProfile)
    (inst : MockUserProfile) (h : inst.pk = none) :
    outcomeOf inst.user (notify_user_ban_status_change lookup inst).1 = Outcome.NoAction ∧
    (notify_user_ban_status_change lookup inst).2 = [] ∧
    notify_user_ban_status_change lookup inst = notify_user_ban_status_change lookup2 inst := by
  simp [notify_user_ban_status_change, pyTruthy, h, outcomeOf]

/-- Witness for claim C1 at the concrete input of test case CT1. -/
theorem ban_pk_absent_no_action_witness :
    outcomeOf demoUser (notify_user_ban_status_change lookupNotFound profileNoPk).1 =
      Outcome.NoAction :=
  (ban_pk_absent_no_action lookupNotFound lookupBanned profileNoPk rfl).1

/-- Claim C2: when the primary key is present (truthy), the lookup finds a
previous record, and the previous and instance banned flags differ, the outcome
is BanNotification of the instance user if the instance banned flag is true and
UnbanNotification of the instance user otherwise. -/
theorem ban_flag_change_outcome (lookup : Option Int → Option MockUserProfile)
    (inst prev : MockUserProfile)
    (hpk : pyTruthy inst.pk = true)
    (hfound : lookup inst.pk = some prev)
    (hdiff : prev.is_banned ≠ inst.is_banned) :
    outcomeOf inst.user (notify_user_ban_status_change lookup inst).1 =
      if inst.is_banned then Outcome.BanNotification inst.user
      else Outcome.UnbanNotification inst.user := by
  cases hb : inst.is_banned <;> cases hp : prev.is_banned <;>
    simp [hb, hp] at hdiff ⊢ <;>
    simp [notify_user_ban_status_change, hpk, hfound, hb, hp, outcomeOf]

/-- Witness for claim C2 at the concrete input of test case CT4 (a user being
banned). -/
theorem ban_flag_change_outcome_witness :
    outcomeOf demoUser (notify_user_ban_status_change lookupUnbanned profileBanned).1 =
      Outcome.BanNotification demoUser := by
  have h := ban_flag_change_outcome lookupUnbanned profileBanned profileUnbanned
    rfl rfl (by decide)
  simpa using h

/-- Claim C4: when the primary key is present but the lookup signals not-found,
the result is the normal return value no_action (not an error), the outcome is
NoAction, and no dispatch message is produced. -/
theorem ban_not_found_no_action (lookup : Option Int → Option MockUserProfile)
    (inst : MockUserProfile)
    (hpk : pyTruthy inst.pk = true)
    (hnotfound : lookup inst.pk = none) :
    (notify_user_ban_status_change lookup inst).1 = some "no_action" ∧
    outcomeOf inst.user (notify_user_ban_status_change lookup inst).1 = Outcome.NoAction ∧
    (notify_user_ban_status_change lookup inst).2 = [] := by
  simp [notify_user_ban_status_change, hpk, hnotfound, outcomeOf]

/-- Witness for claim C4 at the concrete input of test case CT2. -/
theorem ban_not_found_no_action_witness :
    (notify_user_ban_status_change lookupNotFound profileUnbanned).1 = some "no_action" :=
  (ban_not_found_no_action lookupNotFound profileUnbanned rfl rfl).1

/-- Claim C5: when the primary key is present, the lookup finds a previous
record and the two banned flags are equal, the outcome is NoAction and no
dispatch message is produced. -/
theorem ban_same_flag_no_action (lookup : Option Int → Option MockUserProfile)
    (inst prev : MockUserProfile)
    (hpk : pyTruthy inst.pk = true)
    (hfound : lookup inst.pk = some prev)
    (heq : prev.is_banned = inst.is_banned) :
    (notify_user_ban_status_change lookup inst).1 = some "no_action" ∧
    outcomeOf inst.user (notify_user_ban_status_change lookup inst).1 = Outcome.NoAction ∧
    (notify_user_ban_status_change lookup inst).2 = [] := by
  simp [notify_user_ban_status_change, hpk, hfound, heq, outcomeOf]

/-- Witness for claim C5 at the concrete input of test case CT3. -/
theorem ban_same_flag_no_action_witness :
    (notify_user_ban_status_change lookupUnbanned profileUnbanned).1 = some "no_action" :=
  (ban_same_flag_no_action lookupUnbanned profileUnbanned profileUnbanned rfl rfl rfl).1

/-- Claim C8: for every invocation of the spec-modelled handler, a
BanNotification outcome comes with exactly one dispatch call, to the ban queue,
carrying the user email, first name and last name; an UnbanNotification outcome
comes with exactly one dispatch call, to the unban queue, with the same
payload; and a NoAction outcome comes with zero dispatch calls. -/
theorem on_change_dispatch_exact (previousLookup : Int → Option MockUserProfile)
    (inst : MockUserProfile) :
    (∀ u, (on_change previousLookup inst).1 = Outcome.BanNotification u →
      (on_change previousLookup inst).2 =
        [DispatchCall.enqueueBanEmail u.email u.first_name u.last_name]) ∧
    (∀ u, (on_change previousLookup inst).1 = Outcome.UnbanNotification u →
      (on_change previousLookup inst).2 =
        [DispatchCall.enqueueUnbanEmail u.email u.first_name u.last_name]) ∧
    ((on_change previousLookup inst).1 = Outcome.NoAction →
      (on_change previousLookup inst).2 = []) := by
  rcases hpk : inst.pk with _ | k <;> simp [on_change, hpk]
  rcases hl : previousLookup k with _ | previous <;> simp [hl]
  cases hb : inst.is_banned <;> cases hp : previous.is_banned <;> simp [hb, hp]

/-- Witness for claim C8: a ban transition dispatches exactly one ban email
with the user fields. -/
theorem on_change_dispatch_exact_witness :
    (on_change (fun _ => some profileUnbanned) profileBanned).2 =
      [DispatchCall.enqueueBanEmail "test@example.com" "Test" "User"] :=
  (on_change_dispatch_exact (fun _ => some profileUnbanned) profileBanned).1 demoUser rfl

/-- Claim C9: the ban-status notifier is deterministic, a pure function of the
truthiness of the primary key, whether the lookup finds a record, the banned
flag of the found record, and the instance banned flag: two invocations that
agree on those four inputs return the same value. -/
theorem ban_deterministic (l1 l2 : Option Int → Option MockUserProfile)
    (i1 i2 : MockUserProfile)
    (hpk : pyTruthy i1.pk = pyTruthy i2.pk)
    (hfound : (l1 i1.pk).isSome = (l2 i2.pk).isSome)
    (hprev : ∀ p1 p2, l1 i1.pk = some p1 → l2 i2.pk = some p2 →
      p1.is_banned = p2.is_banned)
    (hban : i1.is_banned = i2.is_banned) :
    (notify_user_ban_status_change l1 i1).1 = (notify_user_ban_status_change l2 i2).1 := by
  cases ht : pyTruthy i1.pk with
  | false =>
    have ht2 : pyTruthy i2.pk = false := by rw [← hpk, ht]
    simp [notify_user_ban_status_change, ht, ht2]
  | true =>
    have ht2 : pyTruthy i2.pk = true := by rw [← hpk, ht]
    rcases hl1 : l1 i1.pk with _ | p1 <;> rcases hl2 : l2 i2.pk with _ | p2 <;>
      rw [hl1, hl2] at hfound <;> simp at hfound <;>
      simp [notify_user_ban_status_change, ht, ht2, hl1, hl2]
    have hpe := hprev p1 p2 hl1 hl2
    rw [hpe, hban]
    cases hq : p2.is_banned <;> cases hi : i2.is_banned <;> simp [hq, hi]

/-- Witness for claim C9: two invocations with different lookups and different
instances that agree on the four decision inputs return the same value. -/
theorem ban_deterministic_witness :
    (notify_user_ban_status_change lookupUnbanned profileBanned).1 =
      (notify_user_ban_status_change (fun _ => some profileUnbanned)
        { user := demoUser, is_banned := true, pk := some 2 }).1 := by
  refine ban_deterministic lookupUnbanned (fun _ => some profileUnbanned)
    profileBanned { user := demoUser, is_banned := true, pk := some 2 }
    rfl rfl ?_ rfl
  intro p1 p2 h1 h2
  cases h1
  cases h2
  rfl

/-- Claim C10: the primary-key guard tests Python truthiness, not nullness: an
instance whose pk is set to the falsy integer 0 takes the early-exit branch,
returns None (the no-action outcome), and never consults the lookup. -/
theorem ban_zero_pk_truthiness (lookup lookup2 : Option Int → Option MockUserProfile)
    (inst : MockUserProfile) (h : inst.pk = some 0) :
    (notify_user_ban_status_change lookup inst).1 = none ∧
    outcomeOf inst.user (notify_user_ban_status_change lookup inst).1 = Outcome.NoAction ∧
    notify_user_ban_status_change lookup inst = notify_user_ban_status_change lookup2 inst := by
  simp [notify_user_ban_status_change, pyTruthy, h, outcomeOf]

/-- Witness for claim C10 at pk = 0. -/
theorem ban_zero_pk_truthiness_witness :
    (notify_user_ban_status_change lookupBanned profileZeroPk).1 = none :=
  (ban_zero_pk_truthiness lookupBanned lookupUnbanned profileZeroPk rfl).1

/-- Unfolding helper: `new_messages_count` written without the intermediate
let bindings. -/
theorem new_messages_count_def (db : ChatDB) (u : ChatUser) :
    new_messages_count db u =
      ((db.chatrooms.filter (fun c => c.participant_1 == u) ++
        db.chatrooms.filter (fun c => c.participant_2 == u)).dedup).foldl
        (fun acc chatroom =>
          match (if chatroom.participant_1 == u then some chatroom.participant_2
            else if chatroom.participant_2 == u then some chatroom.participant_1
            else none) with
          | some other => acc + (db.messages.filter (fun m =>
              m.room == chatroom && m.sender == other)).length
          | none => acc) 0 := rfl

/-- The room fold of the count accumulates the per-room contributions: it
equals the start value plus the sum of the mapped contributions. -/
theorem count_foldl_to_sum (db : ChatDB) (u : ChatUser) (l : List ChatRoom) (n : Nat) :
    l.foldl (fun acc chatroom =>
      match (if chatroom.participant_1 == u then some chatroom.participant_2
        else if chatroom.participant_2 == u then some chatroom.participant_1
        else none) with
      | some other => acc + (db.messages.filter (fun m =>
          m.room == chatroom && m.sender == other)).length
      | none => acc) n =
    n + (l.map (fun chatroom =>
      match (if chatroom.participant_1 == u then some chatroom.participant_2
        else if chatroom.participant_2 == u then some chatroom.participant_1
        else none) with
      | some other => (db.messages.filter (fun m =>
          m.room == chatroom && m.sender == other)).length
      | none => 0)).sum := by
  induction l generalizing n with
  | nil => simp
  | cons c l ih =>
    rw [List.foldl_cons, List.map_cons, List.sum_cons]
    rcases h : (if c.participant_1 == u then some c.participant_2
      else if c.participant_2 == u then some c.participant_1 else none) with _ | o
    · simp only [h]
      rw [ih, Nat.zero_add]
    · simp only [h]
      rw [ih, Nat.add_assoc]

/-- Summing a map over a filter by a disjunction of two pointwise-disjoint
predicates splits into the two filtered sums. -/
theorem sum_map_filter_or {α : Type} (g : α → Nat) (p q : α → Bool) (l : List α)
    (hdisj : ∀ c ∈ l, ¬(p c = true ∧ q c = true)) :
    ((l.filter (fun c => p c || q c)).map g).sum =
      ((l.filter p).map g).sum + ((l.filter q).map g).sum := by
  induction l with
  | nil => simp
  | cons c l ih =>
    have hd : ∀ x ∈ l, ¬(p x = true ∧ q x = true) := fun x hx =>
      hdisj x (List.mem_cons_of_mem c hx)
    have hc := hdisj c (List.mem_cons_self c l)
    cases hp : p c <;> cases hq : q c
    · simp [List.filter_cons, hp, hq, ih hd]
    · simp [List.filter_cons, hp, hq, ih hd]; omega
    · simp [List.filter_cons, hp, hq, ih hd]; omega
    · exact absurd ⟨hp, hq⟩ hc

/-- With rooms stored without duplicates and with distinct participants, the
two participant filters of the count are disjoint, so their concatenation has
no duplicates (the `set` step of the source changes nothing). -/
theorem code_rooms_nodup (db : ChatDB) (u : ChatUser)
    (hnodupC : db.chatrooms.Nodup)
    (hdistinct : ∀ c ∈ db.chatrooms, c.participant_1 ≠ c.participant_2) :
    ((db.chatrooms.filter (fun c => c.participant_1 == u)) ++
      db.chatrooms.filter (fun c => c.participant_2 == u)).Nodup := by
  rw [List.nodup_append]
  refine ⟨hnodupC.filter _, hnodupC.filter _, ?_⟩
  intro c hc1 hc2
  have h1 := List.mem_filter.mp hc1
  have h2 := List.mem_filter.mp hc2
  have e1 : c.participant_1 = u := by simpa using h1.2
  have e2 : c.participant_2 = u := by simpa using h2.2
  exact hdistinct c h1.1 (e1.trans e2.symm)

/-- The count the code computes coincides with the count the spec describes,
for any database whose room table has no duplicate rows and whose rooms all
have two distinct participants. -/
theorem count_eq_spec (db : ChatDB) (u : ChatUser)
    (hnodupC : db.chatrooms.Nodup)
    (hdistinct : ∀ c ∈ db.chatrooms, c.participant_1 ≠ c.participant_2) :
    new_messages_count db u = spec_unread_count db u := by
  have hnd := code_rooms_nodup db u hnodupC hdistinct
  have hdisj : ∀ c ∈ db.chatrooms,
      ¬((c.participant_1 == u) = true ∧ (c.participant_2 == u) = true) := by
    intro c hc h
    exact hdistinct c hc ((beq_iff_eq.mp h.1).trans (beq_iff_eq.mp h.2).symm)
  rw [new_messages_count_def, List.dedup_eq_self.mpr hnd, count_foldl_to_sum,
    Nat.zero_add, List.map_append, List.sum_append]
  unfold spec_unread_count
  rw [sum_map_filter_or _ _ _ _ hdisj]
  congr 1
  · refine congrArg List.sum (List.map_congr_left ?_)
    intro c hc
    have h1 : (c.participant_1 == u) = true := (List.mem_filter.mp hc).2
    have e1 : c.participant_1 = u := beq_iff_eq.mp h1
    simp [h1, specOther, e1]
  · refine congrArg List.sum (List.map_congr_left ?_)
    intro c hc
    have hm := List.mem_filter.mp hc
    have e2 : c.participant_2 = u := beq_iff_eq.mp hm.2
    have hne : c.participant_1 ≠ u := fun h =>
      hdistinct c hm.1 (h.trans e2.symm)
    have h1 : (c.participant_1 == u) = false := by
      simpa using hne
    simp [h1, hm.2, specOther, hne]

/-- Unfolding helper: one iteration of the user loop, written with `mailFor`. -/
theorem notifyStep_eq (send_mail : SentMail → Except String Unit) (fe : String)
    (db : ChatDB) (acc : List SentMail × List String) (u : ChatUser) :
    notifyStep send_mail fe db acc u =
      if new_messages_count db u > 0 then
        match send_mail (mailFor fe db u) with
        | Except.ok _ => (acc.1 ++ [mailFor fe db u], acc.2)
        | Except.error e =>
          (acc.1, acc.2 ++ ["Erro ao enviar e-mail para " ++ u.email ++ ": " ++ e])
      else acc := rfl

/-- The run produces exactly the outbox and the error log of its user list. -/
theorem run_eq_outbox_log (send_mail : SentMail → Except String Unit) (fe : String)
    (db : ChatDB) :
    send_new_message_notifications send_mail fe db =
      (outboxFor send_mail fe db db.users, logFor send_mail fe db db.users) := by
  have key : ∀ (us : List ChatUser) (acc : List SentMail × List String),
      us.foldl (notifyStep send_mail fe db) acc =
        (acc.1 ++ outboxFor send_mail fe db us, acc.2 ++ logFor send_mail fe db us) := by
    intro us
    induction us with
    | nil => intro acc; simp [outboxFor, logFor]
    | cons u us ih =>
      intro acc
      rw [List.foldl_cons, ih, notifyStep_eq]
      by_cases h : new_messages_count db u > 0
      · rw [if_pos h]
        cases hs : send_mail (mailFor fe db u) with
        | ok v => simp [outboxFor, logFor, h, hs]
        | error e => simp [outboxFor, logFor, h, hs]
      · rw [if_neg h]
        simp [outboxFor, logFor, h]
  rw [send_new_message_notifications, key]
  simp

/-- The outbox over a concatenation of user lists splits into the two parts. -/
theorem outboxFor_append (send_mail : SentMail → Except String Unit) (fe : String)
    (db : ChatDB) (l1 l2 : List ChatUser) :
    outboxFor send_mail fe db (l1 ++ l2) =
      outboxFor send_mail fe db l1 ++ outboxFor send_mail fe db l2 := by
  induction l1 with
  | nil => simp [outboxFor]
  | cons v l ih => simp [outboxFor, ih]

/-- The error log over a concatenation of user lists splits into the two
parts. -/
theorem logFor_append (send_mail : SentMail → Except String Unit) (fe : String)
    (db : ChatDB) (l1 l2 : List ChatUser) :
    logFor send_mail fe db (l1 ++ l2) =
      logFor send_mail fe db l1 ++ logFor send_mail fe db l2 := by
  induction l1 with
  | nil => simp [logFor]
  | cons v l ih => simp [logFor, ih]

/-- No mail addressed to `u` appears in the outbox of a user list in which
every user carrying the email of `u` has count zero. -/
theorem outbox_filter_nil (send_mail : SentMail → Except String Unit) (fe : String)
    (db : ChatDB) (u : ChatUser) (us : List ChatUser)
    (h : ∀ v ∈ us, v.email = u.email → new_messages_count db v = 0) :
    (outboxFor send_mail fe db us).filter
      (fun m2 => m2.recipient_list == [u.email]) = [] := by
  revert h
  induction us with
  | nil => intro h; simp [outboxFor]
  | cons v us ih =>
    intro h
    have hv := h v (List.mem_cons_self v us)
    have ht : ∀ w ∈ us, w.email = u.email → new_messages_count db w = 0 :=
      fun w hw => h w (List.mem_cons_of_mem v hw)
    simp only [outboxFor]
    rw [List.filter_append, ih ht, List.append_nil]
    by_cases hpos : new_messages_count db v > 0
    · have hne : v.email ≠ u.email := fun he => by
        rw [hv he] at hpos
        exact Nat.lt_irrefl 0 hpos
      rw [if_pos hpos]
      cases hs : send_mail (mailFor fe db v) with
      | ok w => simp [mailFor, hne]
      | error er => simp
    · rw [if_neg hpos]
      simp

/-- Exactly one mail addressed to `u` appears in the outbox of a
duplicate-free user list containing `u`, when `u` has a positive count,
delivery always succeeds, and no other listed user carries the email of `u`. -/
theorem outbox_filter_one (send_mail : SentMail → Except String Unit) (fe : String)
    (db : ChatDB) (u : ChatUser) (us : List ChatUser)
    (hsend : ∀ m, send_mail m = Except.ok ())
    (hnodup : us.Nodup)
    (hemail : ∀ v ∈ us, v.email = u.email → v = u)
    (hu : u ∈ us) (hpos : new_messages_count db u > 0) :
    (outboxFor send_mail fe db us).filter
      (fun m2 => m2.recipient_list == [u.email]) = [mailFor fe db u] := by
  revert hnodup hemail hu
  induction us with
  | nil => intro _ _ hu; cases hu
  | cons v us ih =>
    intro hnodup hemail hu
    have hvnotin : v ∉ us := (List.nodup_cons.mp hnodup).1
    simp only [outboxFor]
    rw [List.filter_append]
    rcases List.mem_cons.mp hu with rfl | hu2
    · have htail : (outboxFor send_mail fe db us).filter
          (fun m2 => m2.recipient_list == [u.email]) = [] := by
        refine outbox_filter_nil send_mail fe db u us (fun w hw he => ?_)
        have hwu : w = u := hemail w (List.mem_cons_of_mem u hw) he
        exact absurd (hwu ▸ hw) hvnotin
      rw [htail, List.append_nil, if_pos hpos, hsend (mailFor fe db u)]
      simp [mailFor]
    · have hvne : v ≠ u := fun he => absurd (he ▸ hu2) hvnotin
      have hvemail : v.email ≠ u.email := fun he =>
        hvne (hemail v (List.mem_cons_self v us) he)
      have hhead : (if new_messages_count db v > 0 then
          match send_mail (mailFor fe db v) with
          | Except.ok _ => [mailFor fe db v]
          | Except.error _ => []
        else []).filter (fun m2 => m2.recipient_list == [u.email]) = [] := by
        by_cases hp : new_messages_count db v > 0
        · rw [if_pos hp, hsend (mailFor fe db v)]
          simp [mailFor, hvemail]
        · rw [if_neg hp]
          simp
      rw [hhead, List.nil_append]
      exact ih ((List.nodup_cons.mp hnodup).2)
        (fun w hw he => hemail w (List.mem_cons_of_mem v hw) he) hu2

/-- Claim C3: for every processed user the computed count equals the sum,
over all conversations in which the user participates, of the messages in that
conversation authored by the other participant; and when that sum is positive
and delivery succeeds, the run produces exactly one email to that user, whose
subject and whose body each contain the literal count. Well-formedness of the
database is assumed: tables without duplicate rows, distinct participants per
room, and no second user row carrying the same email address. -/
theorem count_correct_single_email (send_mail : SentMail → Except String Unit)
    (fe : String) (db : ChatDB) (u : ChatUser)
    (hsend : ∀ m, send_mail m = Except.ok ())
    (hu : u ∈ db.users) (hnodupU : db.users.Nodup)
    (hnodupC : db.chatrooms.Nodup)
    (hdistinct : ∀ c ∈ db.chatrooms, c.participant_1 ≠ c.participant_2)
    (hemail : ∀ v ∈ db.users, v.email = u.email → v = u) :
    new_messages_count db u = spec_unread_count db u ∧
    (0 < spec_unread_count db u →
      ∃ m : SentMail,
        ((send_new_message_notifications send_mail fe db).1.filter
          (fun m2 => m2.recipient_list == [u.email])) = [m] ∧
        (∃ s1 s2, m.subject = s1 ++ toString (spec_unread_count db u) ++ s2) ∧
        (∃ s1 s2, m.message = s1 ++ toString (spec_unread_count db u) ++ s2)) := by
  have hceq := count_eq_spec db u hnodupC hdistinct
  refine ⟨hceq, fun hpos => ?_⟩
  have hp : new_messages_count db u > 0 := by rw [hceq]; exact hpos
  rw [run_eq_outbox_log]
  refine ⟨mailFor fe db u,
    outbox_filter_one send_mail fe db u db.users hsend hnodupU hemail hu hp,
    ⟨"Você tem novas mensagens (", ")", by simp [mailFor, hceq]⟩,
    ⟨"Você tem ", " novas mensagens não lidas. Acesse o AcheiUnB para visualizá-las.",
      by simp [mailFor, hceq]⟩⟩

/-- Witness for claim C3 at the test scenario: two users, one room, two
messages from the second user; the first user has count 2 and receives exactly
one mail carrying 2 in subject and body. -/
theorem count_correct_single_email_witness :
    0 < spec_unread_count sampleDB alice ∧
    ∃ m : SentMail,
      ((send_new_message_notifications sendOk "acheiunb@example.com" sampleDB).1.filter
        (fun m2 => m2.recipient_list == [alice.email])) = [m] ∧
      (∃ s1 s2, m.subject = s1 ++ toString (spec_unread_count sampleDB alice) ++ s2) ∧
      (∃ s1 s2, m.message = s1 ++ toString (spec_unread_count sampleDB alice) ++ s2) := by
  refine ⟨by decide, ?_⟩
  exact (count_correct_single_email sendOk "acheiunb@example.com" sampleDB alice
    (fun _ => rfl) (by decide) (by decide) (by decide) (by decide) (by decide)).2
    (by decide)

/-- Claim C6: a user whose computed count is zero receives no email from the
run; in particular a user who participates in no conversation has count zero,
and so does a user who authored every message of the conversations they
participate in. -/
theorem zero_count_no_email (send_mail : SentMail → Except String Unit)
    (fe : String) (db : ChatDB) (u : ChatUser)
    (hemail : ∀ v ∈ db.users, v.email = u.email → v = u) :
    (new_messages_count db u = 0 →
      ((send_new_message_notifications send_mail fe db).1.filter
        (fun m2 => m2.recipient_list == [u.email])) = []) ∧
    ((∀ c ∈ db.chatrooms, c.participant_1 ≠ u ∧ c.participant_2 ≠ u) →
      new_messages_count db u = 0) ∧
    ((∀ c ∈ db.chatrooms, c.participant_1 ≠ c.participant_2) →
      (∀ m ∈ db.messages,
        (m.room.participant_1 = u ∨ m.room.participant_2 = u) → m.sender = u) →
      new_messages_count db u = 0) := by
  refine ⟨fun h0 => ?_, fun hno => ?_, fun hdist hall => ?_⟩
  · rw [run_eq_outbox_log]
    exact outbox_filter_nil send_mail fe db u db.users
      (fun v hv he => by rw [hemail v hv he]; exact h0)
  · rw [new_messages_count_def]
    have h1 : db.chatrooms.filter (fun c => c.participant_1 == u) = [] :=
      List.filter_eq_nil_iff.mpr (fun c hc => by simp [(hno c hc).1])
    have h2 : db.chatrooms.filter (fun c => c.participant_2 == u) = [] :=
      List.filter_eq_nil_iff.mpr (fun c hc => by simp [(hno c hc).2])
    rw [h1, h2]
    rfl
  · rw [new_messages_count_def, count_foldl_to_sum, Nat.zero_add]
    refine List.sum_eq_zero ?_
    intro x hx
    obtain ⟨c, hc, rfl⟩ := List.mem_map.mp hx
    have hcrooms : c ∈ db.chatrooms := by
      rcases List.mem_append.mp (List.mem_dedup.mp hc) with h | h
      · exact (List.mem_filter.mp h).1
      · exact (List.mem_filter.mp h).1
    have hdc := hdist c hcrooms
    rcases List.mem_append.mp (List.mem_dedup.mp hc) with hcp | hcq
    · have e1 : c.participant_1 = u := by
        simpa using (List.mem_filter.mp hcp).2
      have h1 : (c.participant_1 == u) = true := by simp [e1]
      simp only [h1, if_true]
      rw [List.length_eq_zero]
      refine List.filter_eq_nil_iff.mpr ?_
      intro m hm hcond
      simp only [Bool.and_eq_true, beq_iff_eq] at hcond
      have hs : m.sender = u := hall m hm (Or.inl (by rw [hcond.1, e1]))
      exact hdc (by rw [e1, ← hcond.2, hs])
    · have e2 : c.participant_2 = u := by
        simpa using (List.mem_filter.mp hcq).2
      have hne1 : c.participant_1 ≠ u := fun h => hdc (h.trans e2.symm)
      have h1 : (c.participant_1 == u) = false := by simpa using hne1
      have h2 : (c.participant_2 == u) = true := by simp [e2]
      simp only [h1, h2, Bool.false_eq_true, if_false, if_true]
      rw [List.length_eq_zero]
      refine List.filter_eq_nil_iff.mpr ?_
      intro m hm hcond
      simp only [Bool.and_eq_true, beq_iff_eq] at hcond
      have hs : m.sender = u := hall m hm (Or.inr (by rw [hcond.1, e2]))
      exact hne1 (by rw [← hcond.2, hs])

/-- Witness for claim C6 at the test scenario: the second user authored every
message of the one conversation, has count zero, and receives no mail. -/
theorem zero_count_no_email_witness :
    ((send_new_message_notifications sendOk "acheiunb@example.com" sampleDB).1.filter
      (fun m2 => m2.recipient_list == [bob.email])) = [] :=
  (zero_count_no_email sendOk "acheiunb@example.com" sampleDB bob (by decide)).1
    (by decide)

/-- Claim C7: a delivery failure for one user is caught, an error line carrying
that user email and the error detail is logged, the failed mail never reaches
the outbox, and every user before and after the failing one is processed
exactly as it otherwise would be: the run never aborts. -/
theorem delivery_failure_isolated (send_mail : SentMail → Except String Unit)
    (fe : String) (db : ChatDB) (l1 l2 : List ChatUser) (u : ChatUser) (e : String)
    (husers : db.users = l1 ++ u :: l2)
    (hpos : new_messages_count db u > 0)
    (hfail : send_mail (mailFor fe db u) = Except.error e) :
    (send_new_message_notifications send_mail fe db).2 =
      logFor send_mail fe db l1 ++
        ("Erro ao enviar e-mail para " ++ u.email ++ ": " ++ e) ::
          logFor send_mail fe db l2 ∧
    (send_new_message_notifications send_mail fe db).1 =
      outboxFor send_mail fe db l1 ++ outboxFor send_mail fe db l2 := by
  rw [run_eq_outbox_log, husers]
  constructor
  · rw [logFor_append]
    simp only [logFor]
    rw [if_pos hpos, hfail]
    simp
  · rw [outboxFor_append]
    simp only [outboxFor]
    rw [if_pos hpos, hfail]
    simp

/-- Witness for claim C7: with a collaborator that raises exactly for the first
sample user, the run logs the error line for that user and still processes the
second user. -/
theorem delivery_failure_isolated_witness :
    (send_new_message_notifications sendFailAlice "acheiunb@example.com" sampleDB).2 =
      ["Erro ao enviar e-mail para test1@example.com: boom"] ∧
    (send_new_message_notifications sendFailAlice "acheiunb@example.com" sampleDB).1 = [] := by
  have h := delivery_failure_isolated sendFailAlice "acheiunb@example.com" sampleDB
    [] [bob] alice "boom" rfl (by decide) rfl
  constructor
  · rw [h.1]
    decide
  · rw [h.2]
    decide
